import Mathlib

/-!
Shallow embedding of the nerospacebackend upload pipeline.

Source files modelled:
- `src/unnamed/part_004` (and its JS twin `src/unnamed/part_000`): class
  `StorachaClient` with `initialize`, `setupSpace`, `setupDelegation`,
  `upload`, `uploadDirectory`, `isReady`.
- `src/utils/setup-space.js` (second document, the current main module),
  lines 210-286: `uploadFileToStorage`, the three-provider fallback chain
  (Storacha, then Web3Storage, then local disk in development mode).

External effects (the w3up backend, network, the clock, the filesystem) are
modelled by an explicit environment record that fixes the outcome of each
backend call made during one invocation.  JS object literals returned by the
adapters are modelled as ordered association lists so that the set of fields
a result carries is part of the model.
-/

namespace Nerospace

/-- Value of one field of a JS object literal produced by the upload pipeline. -/
inductive JsValue where
  | str (s : String)
  | num (n : Nat)
  | arr (xs : List String)
  deriving DecidableEq, Repr

/-- JS object literal: ordered list of fields. -/
abbrev JsObj := List (String × JsValue)

/-- Field access on a JS object, i.e. `obj[key]`; `none` when the object
carries no such field. -/
def JsObj.get (key : String) : JsObj → Option JsValue
  | [] => none
  | (k, v) :: rest => if k = key then some v else JsObj.get key rest

/-- Opaque w3up client session handle: the only observable used by the code
is `currentSpace()`. -/
structure ClientHandle where
  currentSpace : Option String
  deriving DecidableEq, Repr

/-- In-process state of `StorachaClient` (`src/unnamed/part_004`):
`spaceDid` from the constructor, the `client` handle (null before the first
successful `create()`), and the memoized `initialized` flag. -/
structure StorachaClient where
  spaceDid : String
  client : Option ClientHandle
  initialized : Bool
  deriving DecidableEq, Repr

/-- Outcomes of the w3up backend calls made during one invocation:
`w3upClient.create()`, `client.spaces()`, `client.setCurrentSpace(spaceDid)`
and `client.uploadFile` / `client.uploadDirectory`. -/
structure W3Env where
  createOk : Bool
  createErr : String
  spaces : List String
  setSpaceOk : Bool
  setSpaceErr : String
  uploadOk : Bool
  uploadErr : String
  uploadCid : String
  deriving DecidableEq, Repr

namespace StorachaClient

/-- Constructor of `StorachaClient`: throws when `apiKey` is falsy. -/
def mkClient (apiKey : String) : Except String StorachaClient :=
  if apiKey = "" then Except.error "Space DID is required"
  else Except.ok { spaceDid := apiKey, client := none, initialized := false }

/-- Value of `this.client?.currentSpace()`. -/
def currentSpaceOf (s : StorachaClient) : Option String :=
  s.client.bind fun c => c.currentSpace

/-- Method `isReady()`: `this.initialized && !!this.client?.currentSpace()`. -/
def isReady (s : StorachaClient) : Bool :=
  s.initialized && (currentSpaceOf s).isSome

/-- Method `setupSpace()` (with `setupDelegation()` inlined in the branch
where the target space is not among the directly accessible spaces).  Both
branches call `setCurrentSpace(this.spaceDid)`; a failure is rethrown
wrapped in a `Space setup failed:` message, the delegation branch replacing
the cause by its fixed delegation error text. -/
def setupSpace (s : StorachaClient) (env : W3Env) : Except String StorachaClient :=
  if env.spaces.contains s.spaceDid then
    if env.setSpaceOk then
      Except.ok { s with client := some { currentSpace := some s.spaceDid } }
    else
      Except.error ("Space setup failed: " ++ env.setSpaceErr)
  else
    if env.setSpaceOk then
      Except.ok { s with client := some { currentSpace := some s.spaceDid } }
    else
      Except.error
        ("Space setup failed: Unable to access space. Please ensure proper delegation is set up.")

/-- Method `initialize()`.  Returns the new state, the call outcome, and the
number of `w3upClient.create()` session-creation calls performed.  The early
return on `this.initialized` performs no backend call at all; otherwise one
`create()` call is made, then `setupSpace()`, and `initialized` is set only
after `setupSpace` returns; any failure is rethrown wrapped in a
`Storacha initialization failed:` message and leaves `initialized` false. -/
def init (s : StorachaClient) (env : W3Env) : StorachaClient × Except String Unit × Nat :=
  if s.initialized then (s, Except.ok (), 0)
  else if env.createOk then
    match setupSpace { s with client := some { currentSpace := none } } env with
    | Except.ok s2 => ({ s2 with initialized := true }, Except.ok (), 1)
    | Except.error e =>
      ({ s with client := some { currentSpace := none } },
       Except.error ("Storacha initialization failed: " ++ e), 1)
  else
    (s, Except.error ("Storacha initialization failed: " ++ env.createErr), 1)

/-- Guard `if (!this.initialized) await this.initialize()` shared by
`upload`, `uploadDirectory`, `listUploads`, `getUploadInfo`, `removeUpload`. -/
def ensureInit (s : StorachaClient) (env : W3Env) : StorachaClient × Except String Unit :=
  if s.initialized then (s, Except.ok ())
  else
    let r := init s env
    (r.1, r.2.1)

/-- Body of `upload` after the initialization guard: the falsy-filename check
(the data argument is a non-null Buffer here, so its null check cannot fire),
then `client.uploadFile`, whose result record is
`{cid, name, url, size, type}` with `size` the byte length of the data. -/
def uploadBody (env : W3Env) (data : List Nat) (filename contentType : String) :
    Except String JsObj :=
  if filename = "" then Except.error "Filename is required"
  else if env.uploadOk then
    Except.ok
      [("cid", JsValue.str env.uploadCid),
       ("name", JsValue.str filename),
       ("url", JsValue.str ("https://" ++ env.uploadCid ++ ".ipfs.w3s.link")),
       ("size", JsValue.num data.length),
       ("type", JsValue.str contentType)]
  else
    Except.error ("Upload failed: " ++ env.uploadErr)

/-- Method `upload({data, filename, contentType})`. -/
def upload (s : StorachaClient) (env : W3Env) (data : List Nat)
    (filename contentType : String) : StorachaClient × Except String JsObj :=
  match ensureInit s env with
  | (s1, Except.ok _) => (s1, uploadBody env data filename contentType)
  | (s1, Except.error e) => (s1, Except.error e)

/-- Body of `uploadDirectory` after the initialization guard: the empty-array
check, then `client.uploadDirectory`, whose result record is
`{cid, url, files}`. -/
def uploadDirBody (env : W3Env) (files : List (List Nat × String × String)) :
    Except String JsObj :=
  if files.length = 0 then Except.error "Files array is required and must not be empty"
  else if env.uploadOk then
    Except.ok
      [("cid", JsValue.str env.uploadCid),
       ("url", JsValue.str ("https://" ++ env.uploadCid ++ ".ipfs.w3s.link/")),
       ("files", JsValue.arr (files.map fun f => f.2.1))]
  else
    Except.error ("Directory upload failed: " ++ env.uploadErr)

/-- Method `uploadDirectory(files)`. -/
def uploadDirectory (s : StorachaClient) (env : W3Env)
    (files : List (List Nat × String × String)) : StorachaClient × Except String JsObj :=
  match ensureInit s env with
  | (s1, Except.ok _) => (s1, uploadDirBody env files)
  | (s1, Except.error e) => (s1, Except.error e)

end StorachaClient

/-- Provider-invocation trace of one `uploadFileToStorage` call: a
`storachaClient.upload` call, a `web3storage.put` call, or the local-disk
adapter touching the filesystem under the given uploads path. -/
inductive Event where
  | primaryStore
  | secondaryPut
  | localWrite (path : String)
  deriving DecidableEq, Repr

/-- Outcomes of the backend calls available to one `uploadFileToStorage`
invocation: the w3up oracle for the Storacha client, the `web3storage.put`
outcome and its CID, whether the local filesystem operations succeed, and
the values of the two `Date.now()` calls in the local branch (the first
builds the unique file name, the second the synthetic cid). -/
structure ResolverEnv where
  w3 : W3Env
  putOk : Bool
  putCid : String
  localOk : Bool
  now1 : Nat
  now2 : Nat
  deriving DecidableEq, Repr

/-- Guard `if (!storachaClient.isReady()) await storachaClient.initialize()`
at the head of the resolver's Storacha branch. -/
def resolverEnsure (sc : StorachaClient) (env : W3Env) : StorachaClient × Except String Unit :=
  if sc.isReady then (sc, Except.ok ())
  else
    let r := StorachaClient.init sc env
    (r.1, r.2.1)

/-- Storacha branch of `uploadFileToStorage` (`if (storachaClient) { try ... }`):
`none` when the provider is unconfigured or its try block caught an error,
`some result` when `storachaClient.upload` returned; the trace records
whether the `upload` call was reached. -/
def tryPrimary (storacha : Option StorachaClient) (env : ResolverEnv)
    (data : List Nat) (fileName mimeType : String) : Option JsObj × List Event :=
  match storacha with
  | none => (none, [])
  | some sc =>
    match resolverEnsure sc env.w3 with
    | (_, Except.error _) => (none, [])
    | (sc1, Except.ok _) =>
      match StorachaClient.upload sc1 env.w3 data fileName mimeType with
      | (_, Except.ok r) => (some r, [Event.primaryStore])
      | (_, Except.error _) => (none, [Event.primaryStore])

/-- Web3Storage branch of `uploadFileToStorage` (`if (web3storage) { try ... }`):
on success the result record is `{cid, name, url, size, type}` with the
gateway url carrying the file name and `size` the input byte length. -/
def trySecondary (web3 : Bool) (env : ResolverEnv)
    (data : List Nat) (fileName mimeType : String) : Option JsObj × List Event :=
  if web3 then
    if env.putOk then
      (some
        [("cid", JsValue.str env.putCid),
         ("name", JsValue.str fileName),
         ("url", JsValue.str ("https://" ++ env.putCid ++ ".ipfs.w3s.link/" ++ fileName)),
         ("size", JsValue.num data.length),
         ("type", JsValue.str mimeType)],
       [Event.secondaryPut])
    else (none, [Event.secondaryPut])
  else (none, [])

/-- Local-disk branch of `uploadFileToStorage`, guarded by
`process.env.NODE_ENV === "development"` (the mode is `none` when the
variable is unset): writes `<Date.now()>-<fileName>` under `uploads/` and
returns `{cid: local-<Date.now()>, name, url: /uploads/<unique>, size, type}`. -/
def tryLocal (mode : Option String) (env : ResolverEnv)
    (data : List Nat) (fileName mimeType : String) : Option JsObj × List Event :=
  if mode = some "development" then
    let uniqueFileName := toString env.now1 ++ "-" ++ fileName
    if env.localOk then
      (some
        [("cid", JsValue.str ("local-" ++ toString env.now2)),
         ("name", JsValue.str fileName),
         ("url", JsValue.str ("/uploads/" ++ uniqueFileName)),
         ("size", JsValue.num data.length),
         ("type", JsValue.str mimeType)],
       [Event.localWrite uniqueFileName])
    else (none, [Event.localWrite uniqueFileName])
  else (none, [])

/-- Function `uploadFileToStorage(fileBuffer, fileName, mimeType)` of the
current main module (`src/utils/setup-space.js`, second document, lines
210-286): try Storacha, then Web3Storage, then the development-only local
disk fallback, returning the first success and throwing
`All storage methods failed. Please check your storage configuration.`
when every branch declined or failed.  `storacha` is the module-level
`storachaClient` variable (`none` when `STORACHA_TOKEN` was absent or the
startup initialization nulled it out), `web3` whether the module-level
`web3storage` client exists, `mode` the value of `process.env.NODE_ENV`. -/
def uploadFileToStorage (storacha : Option StorachaClient) (web3 : Bool)
    (mode : Option String) (env : ResolverEnv) (data : List Nat)
    (fileName mimeType : String) : Except String JsObj × List Event :=
  match tryPrimary storacha env data fileName mimeType with
  | (some r, evs) => (Except.ok r, evs)
  | (none, evs1) =>
    match trySecondary web3 env data fileName mimeType with
    | (some r, evs2) => (Except.ok r, evs1 ++ evs2)
    | (none, evs2) =>
      match tryLocal mode env data fileName mimeType with
      | (some r, evs3) => (Except.ok r, evs1 ++ evs2 ++ evs3)
      | (none, evs3) =>
        (Except.error "All storage methods failed. Please check your storage configuration.",
         evs1 ++ evs2 ++ evs3)

/-! Concrete fixtures used by witnesses. -/

/-- A Storacha session already initialized on its space. -/
def readyClient : StorachaClient :=
  { spaceDid := "did:key:zspace",
    client := some { currentSpace := some "did:key:zspace" },
    initialized := true }

/-- A freshly constructed Storacha session. -/
def freshClient : StorachaClient :=
  { spaceDid := "did:key:zspace", client := none, initialized := false }

/-- A w3up backend where every call succeeds. -/
def okW3 : W3Env :=
  { createOk := true, createErr := "",
    spaces := ["did:key:zspace"],
    setSpaceOk := true, setSpaceErr := "",
    uploadOk := true, uploadErr := "", uploadCid := "bafyprimary" }

/-- A w3up backend where session creation fails. -/
def downW3 : W3Env :=
  { createOk := false, createErr := "network down",
    spaces := [],
    setSpaceOk := false, setSpaceErr := "no proof",
    uploadOk := false, uploadErr := "boom", uploadCid := "" }

/-- A resolver environment where every provider succeeds. -/
def envAllOk : ResolverEnv :=
  { w3 := okW3, putOk := true, putCid := "bafysecondary",
    localOk := true, now1 := 1750000000000, now2 := 1750000000001 }

/-- A resolver environment where the remote providers fail and only the
local disk works. -/
def envRemoteDown : ResolverEnv :=
  { w3 := downW3, putOk := false, putCid := "",
    localOk := true, now1 := 1750000000000, now2 := 1750000000001 }

/-- A ten-byte payload. -/
def tenBytes : List Nat := [0, 1, 2, 3, 4, 5, 6, 7, 8, 9]

/-! Helper lemmas shared by the claim theorems. -/

/-- The Storacha branch records at most its own `upload` call. -/
theorem tryPrimary_trace (storacha : Option StorachaClient) (env : ResolverEnv)
    (data : List Nat) (fileName mimeType : String) :
    (tryPrimary storacha env data fileName mimeType).2 = [] ∨
    (tryPrimary storacha env data fileName mimeType).2 = [Event.primaryStore] := by
  cases storacha with
  | none => exact Or.inl rfl
  | some sc =>
    rcases h1 : resolverEnsure sc env.w3 with ⟨sc1, r1⟩
    cases r1 with
    | error e => simp [tryPrimary, h1]
    | ok u =>
      rcases h2 : StorachaClient.upload sc1 env.w3 data fileName mimeType with ⟨sc2, r2⟩
      cases r2 with
      | error e => simp [tryPrimary, h1, h2]
      | ok r => simp [tryPrimary, h1, h2]

/-- The Web3Storage branch records at most its own `put` call. -/
theorem trySecondary_trace (web3 : Bool) (env : ResolverEnv)
    (data : List Nat) (fileName mimeType : String) :
    (trySecondary web3 env data fileName mimeType).2 = [] ∨
    (trySecondary web3 env data fileName mimeType).2 = [Event.secondaryPut] := by
  unfold trySecondary
  cases web3 with
  | false => exact Or.inl rfl
  | true =>
    cases hp : env.putOk with
    | false => simp [hp]
    | true => simp [hp]

/-- No local-disk write appears in the Storacha branch trace. -/
theorem tryPrimary_no_localWrite (storacha : Option StorachaClient) (env : ResolverEnv)
    (data : List Nat) (fileName mimeType : String) (p : String) :
    Event.localWrite p ∉ (tryPrimary storacha env data fileName mimeType).2 := by
  rcases tryPrimary_trace storacha env data fileName mimeType with h | h <;> simp [h]

/-- No local-disk write appears in the Web3Storage branch trace. -/
theorem trySecondary_no_localWrite (web3 : Bool) (env : ResolverEnv)
    (data : List Nat) (fileName mimeType : String) (p : String) :
    Event.localWrite p ∉ (trySecondary web3 env data fileName mimeType).2 := by
  rcases trySecondary_trace web3 env data fileName mimeType with h | h <;> simp [h]

/-- C1: for every upload request, if the primary provider is configured and
its store call succeeds (the readiness guard passes and
`storachaClient.upload` returns a result), `uploadFileToStorage` returns the
primary adapter's result immediately and never invokes the secondary adapter
or the local-disk adapter. -/
theorem c1_primary_short_circuit
    (sc : StorachaClient) (web3 : Bool) (mode : Option String) (env : ResolverEnv)
    (data : List Nat) (fileName mimeType : String) (r : JsObj)
    (hens : (resolverEnsure sc env.w3).2 = Except.ok ())
    (hstore : (StorachaClient.upload (resolverEnsure sc env.w3).1 env.w3
        data fileName mimeType).2 = Except.ok r) :
    uploadFileToStorage (some sc) web3 mode env data fileName mimeType =
      (Except.ok r, [Event.primaryStore]) ∧
    Event.secondaryPut ∉ (uploadFileToStorage (some sc) web3 mode env data fileName mimeType).2 ∧
    ∀ p, Event.localWrite p ∉
      (uploadFileToStorage (some sc) web3 mode env data fileName mimeType).2 := by
  have htp : tryPrimary (some sc) env data fileName mimeType = (some r, [Event.primaryStore]) := by
    rcases h1 : resolverEnsure sc env.w3 with ⟨sc1, r1⟩
    rw [h1] at hens hstore
    simp only at hens hstore
    subst hens
    rcases h2 : StorachaClient.upload sc1 env.w3 data fileName mimeType with ⟨sc2, r2⟩
    rw [h2] at hstore
    simp only at hstore
    subst hstore
    simp [tryPrimary, h1, h2]
  refine ⟨?_, ?_, ?_⟩
  · simp [uploadFileToStorage, htp]
  · simp [uploadFileToStorage, htp]
  · intro p
    simp [uploadFileToStorage, htp]

/-- Witness for C1 at a concrete input: a ready client and a healthy
backend; the resolver returns the primary result and the trace holds only
the primary store call. -/
theorem c1_primary_short_circuit_witness :
    uploadFileToStorage (some readyClient) true (some "production") envAllOk
        tenBytes "a.png" "image/png" =
      (Except.ok
        [("cid", JsValue.str "bafyprimary"),
         ("name", JsValue.str "a.png"),
         ("url", JsValue.str "https://bafyprimary.ipfs.w3s.link"),
         ("size", JsValue.num 10),
         ("type", JsValue.str "image/png")],
       [Event.primaryStore]) ∧
    Event.secondaryPut ∉ (uploadFileToStorage (some readyClient) true (some "production")
      envAllOk tenBytes "a.png" "image/png").2 ∧
    ∀ p, Event.localWrite p ∉ (uploadFileToStorage (some readyClient) true (some "production")
      envAllOk tenBytes "a.png" "image/png").2 :=
  c1_primary_short_circuit readyClient true (some "production") envAllOk
    tenBytes "a.png" "image/png"
    [("cid", JsValue.str "bafyprimary"),
     ("name", JsValue.str "a.png"),
     ("url", JsValue.str "https://bafyprimary.ipfs.w3s.link"),
     ("size", JsValue.num 10),
     ("type", JsValue.str "image/png")]
    rfl rfl

/-- When the mode is not exactly `development`, a resolver call whose
Storacha and Web3Storage branches both decline or fail throws the terminal
error and its trace holds no local-disk write. -/
theorem allFail_of_not_dev (storacha : Option StorachaClient) (web3 : Bool)
    (mode : Option String) (env : ResolverEnv) (data : List Nat)
    (fileName mimeType : String)
    (hm : mode ≠ some "development")
    (hp : (tryPrimary storacha env data fileName mimeType).1 = none)
    (hs : (trySecondary web3 env data fileName mimeType).1 = none) :
    (uploadFileToStorage storacha web3 mode env data fileName mimeType).1 =
      Except.error "All storage methods failed. Please check your storage configuration." ∧
    ∀ p, Event.localWrite p ∉
      (uploadFileToStorage storacha web3 mode env data fileName mimeType).2 := by
  have hl : tryLocal mode env data fileName mimeType = (none, []) := by
    simp [tryLocal, hm]
  have e1 := tryPrimary_no_localWrite storacha env data fileName mimeType
  have e2 := trySecondary_no_localWrite web3 env data fileName mimeType
  rcases h1 : tryPrimary storacha env data fileName mimeType with ⟨o1, evs1⟩
  rcases h2 : trySecondary web3 env data fileName mimeType with ⟨o2, evs2⟩
  rw [h1] at hp e1
  rw [h2] at hs e2
  simp only at hp hs e1 e2
  subst hp
  subst hs
  constructor
  · simp [uploadFileToStorage, h1, h2, hl]
  · intro p
    simp only [uploadFileToStorage, h1, h2, hl, List.append_nil]
    intro hmem
    rcases List.mem_append.mp hmem with h | h
    · exact e1 p h
    · exact e2 p h

/-- C2: in production mode, if both the primary and the secondary provider
fail (or are unconfigured), `uploadFileToStorage` throws the terminal
all-providers-failed error and the local-disk step is skipped entirely: no
filesystem write appears in the trace. -/
theorem c2_production_all_providers_failed (storacha : Option StorachaClient)
    (web3 : Bool) (env : ResolverEnv) (data : List Nat) (fileName mimeType : String)
    (hp : (tryPrimary storacha env data fileName mimeType).1 = none)
    (hs : (trySecondary web3 env data fileName mimeType).1 = none) :
    (uploadFileToStorage storacha web3 (some "production") env data fileName mimeType).1 =
      Except.error "All storage methods failed. Please check your storage configuration." ∧
    ∀ p, Event.localWrite p ∉
      (uploadFileToStorage storacha web3 (some "production") env data fileName mimeType).2 :=
  allFail_of_not_dev storacha web3 (some "production") env data fileName mimeType
    (by decide) hp hs

/-- Witness for C2 at a concrete input: no configured providers, production
mode; the call throws and no local write happens. -/
theorem c2_production_all_providers_failed_witness :
    (uploadFileToStorage none false (some "production") envRemoteDown
        tenBytes "a.png" "image/png").1 =
      Except.error "All storage methods failed. Please check your storage configuration." ∧
    ∀ p, Event.localWrite p ∉
      (uploadFileToStorage none false (some "production") envRemoteDown
        tenBytes "a.png" "image/png").2 :=
  c2_production_all_providers_failed none false envRemoteDown tenBytes "a.png" "image/png"
    rfl rfl

/-- C9: whenever `NODE_ENV` is any value other than the exact string
`development` (including unset, modelled as `none`), the local-disk fallback
is never attempted: after the primary and secondary branches decline or
fail, `uploadFileToStorage` throws the terminal error without writing to the
filesystem. -/
theorem c9_local_only_in_development (storacha : Option StorachaClient)
    (web3 : Bool) (mode : Option String) (env : ResolverEnv) (data : List Nat)
    (fileName mimeType : String)
    (hm : mode ≠ some "development")
    (hp : (tryPrimary storacha env data fileName mimeType).1 = none)
    (hs : (trySecondary web3 env data fileName mimeType).1 = none) :
    (uploadFileToStorage storacha web3 mode env data fileName mimeType).1 =
      Except.error "All storage methods failed. Please check your storage configuration." ∧
    ∀ p, Event.localWrite p ∉
      (uploadFileToStorage storacha web3 mode env data fileName mimeType).2 :=
  allFail_of_not_dev storacha web3 mode env data fileName mimeType hm hp hs

/-- Witness for C9 at a concrete input: `NODE_ENV` unset (not production
either); the call still throws with no local write. -/
theorem c9_local_only_in_development_witness :
    (uploadFileToStorage none false none envRemoteDown tenBytes "a.png" "image/png").1 =
      Except.error "All storage methods failed. Please check your storage configuration." ∧
    ∀ p, Event.localWrite p ∉
      (uploadFileToStorage none false none envRemoteDown tenBytes "a.png" "image/png").2 :=
  c9_local_only_in_development none false none envRemoteDown tenBytes "a.png" "image/png"
    (by decide) rfl rfl

/-- C3: in development mode, when the primary and secondary branches both
decline or fail, a 10-byte upload named `a.png` with content type
`image/png` succeeds via the local-disk adapter: the result has cid
`local-<timestamp>`, url `/uploads/<timestamp>-a.png` (unix-millis prefix
on the original filename), and size 10, and the trace records the local
write of `<timestamp>-a.png`. -/
theorem c3_development_local_result (storacha : Option StorachaClient) (web3 : Bool)
    (env : ResolverEnv) (data : List Nat)
    (hp : (tryPrimary storacha env data "a.png" "image/png").1 = none)
    (hs : (trySecondary web3 env data "a.png" "image/png").1 = none)
    (hl : env.localOk = true)
    (hlen : data.length = 10) :
    (uploadFileToStorage storacha web3 (some "development") env data "a.png" "image/png").1 =
      Except.ok
        [("cid", JsValue.str ("local-" ++ toString env.now2)),
         ("name", JsValue.str "a.png"),
         ("url", JsValue.str ("/uploads/" ++ toString env.now1 ++ "-a.png")),
         ("size", JsValue.num 10),
         ("type", JsValue.str "image/png")] ∧
    Event.localWrite (toString env.now1 ++ "-a.png") ∈
      (uploadFileToStorage storacha web3 (some "development") env data "a.png" "image/png").2 := by
  have huniq : toString env.now1 ++ "-" ++ "a.png" = toString env.now1 ++ "-a.png" := by
    rw [String.append_assoc]
    rfl
  have hurl : "/uploads/" ++ (toString env.now1 ++ "-" ++ "a.png") =
      "/uploads/" ++ toString env.now1 ++ "-a.png" := by
    rw [huniq, String.append_assoc]
  have hloc : tryLocal (some "development") env data "a.png" "image/png" =
      (some
        [("cid", JsValue.str ("local-" ++ toString env.now2)),
         ("name", JsValue.str "a.png"),
         ("url", JsValue.str ("/uploads/" ++ toString env.now1 ++ "-a.png")),
         ("size", JsValue.num data.length),
         ("type", JsValue.str "image/png")],
       [Event.localWrite (toString env.now1 ++ "-a.png")]) := by
    unfold tryLocal
    rw [if_pos rfl]
    simp only [hl, if_true, hurl, huniq]
    rw [← String.append_assoc]
  rcases h1 : tryPrimary storacha env data "a.png" "image/png" with ⟨o1, evs1⟩
  rcases h2 : trySecondary web3 env data "a.png" "image/png" with ⟨o2, evs2⟩
  rw [h1] at hp
  rw [h2] at hs
  simp only at hp hs
  subst hp
  subst hs
  constructor
  · simp [uploadFileToStorage, h1, h2, hloc, hlen]
  · simp [uploadFileToStorage, h1, h2, hloc]

/-- Witness for C3 at a concrete input: no configured providers, development
mode, ten bytes named `a.png`. -/
theorem c3_development_local_result_witness :
    (uploadFileToStorage none false (some "development") envRemoteDown
        tenBytes "a.png" "image/png").1 =
      Except.ok
        [("cid", JsValue.str ("local-" ++ toString envRemoteDown.now2)),
         ("name", JsValue.str "a.png"),
         ("url", JsValue.str ("/uploads/" ++ toString envRemoteDown.now1 ++ "-a.png")),
         ("size", JsValue.num 10),
         ("type", JsValue.str "image/png")] ∧
    Event.localWrite (toString envRemoteDown.now1 ++ "-a.png") ∈
      (uploadFileToStorage none false (some "development") envRemoteDown
        tenBytes "a.png" "image/png").2 :=
  c3_development_local_result none false envRemoteDown tenBytes rfl rfl rfl rfl

/-- Any result the Storacha branch returns carries `size` equal to the input
byte length. -/
theorem tryPrimary_size (storacha : Option StorachaClient) (env : ResolverEnv)
    (data : List Nat) (fileName mimeType : String) (r : JsObj)
    (h : (tryPrimary storacha env data fileName mimeType).1 = some r) :
    JsObj.get "size" r = some (JsValue.num data.length) := by
  cases storacha with
  | none => simp [tryPrimary] at h
  | some sc =>
    rcases h1 : resolverEnsure sc env.w3 with ⟨sc1, r1⟩
    cases r1 with
    | error e => simp [tryPrimary, h1] at h
    | ok u =>
      rcases h2 : StorachaClient.upload sc1 env.w3 data fileName mimeType with ⟨sc2, r2⟩
      cases r2 with
      | error e => simp [tryPrimary, h1, h2] at h
      | ok r0 =>
        simp only [tryPrimary, h1, h2] at h
        simp only [Option.some.injEq] at h
        subst h
        unfold StorachaClient.upload at h2
        rcases h3 : StorachaClient.ensureInit sc1 env.w3 with ⟨s3, r3⟩
        rw [h3] at h2
        cases r3 with
        | error e => simp at h2
        | ok u2 =>
          simp only at h2
          have h4 : StorachaClient.uploadBody env.w3 data fileName mimeType = Except.ok r0 := by
            have := congrArg Prod.snd h2
            simpa using this
          unfold StorachaClient.uploadBody at h4
          by_cases hf : fileName = ""
          · simp [hf] at h4
          · rw [if_neg hf] at h4
            by_cases hu : env.w3.uploadOk = true
            · rw [if_pos hu] at h4
              have h5 := h4
              simp only [Except.ok.injEq] at h5
              subst h5
              simp [JsObj.get]
            · simp [hu] at h4

/-- Any result the Web3Storage branch returns carries `size` equal to the
input byte length. -/
theorem trySecondary_size (web3 : Bool) (env : ResolverEnv)
    (data : List Nat) (fileName mimeType : String) (r : JsObj)
    (h : (trySecondary web3 env data fileName mimeType).1 = some r) :
    JsObj.get "size" r = some (JsValue.num data.length) := by
  cases web3 with
  | false => simp [trySecondary] at h
  | true =>
    by_cases hp : env.putOk = true
    · simp only [trySecondary, hp, if_true] at h
      simp only [Option.some.injEq] at h
      subst h
      simp [JsObj.get]
    · simp [trySecondary, hp] at h

/-- Any result the local-disk branch returns carries `size` equal to the
input byte length. -/
theorem tryLocal_size (mode : Option String) (env : ResolverEnv)
    (data : List Nat) (fileName mimeType : String) (r : JsObj)
    (h : (tryLocal mode env data fileName mimeType).1 = some r) :
    JsObj.get "size" r = some (JsValue.num data.length) := by
  by_cases hm : mode = some "development"
  · by_cases hl : env.localOk = true
    · simp only [tryLocal, hm, if_pos rfl, hl, if_true] at h
      simp only [Option.some.injEq] at h
      subst h
      simp [JsObj.get]
    · simp [tryLocal, hm, hl] at h
  · simp [tryLocal, hm] at h

/-- C4: for every byte payload and filename, whichever provider in the chain
succeeds, the result returned by `uploadFileToStorage` has a `size` field
equal to the byte length of the input payload. -/
theorem c4_size_equals_input_length (storacha : Option StorachaClient) (web3 : Bool)
    (mode : Option String) (env : ResolverEnv) (data : List Nat)
    (fileName mimeType : String) (r : JsObj)
    (h : (uploadFileToStorage storacha web3 mode env data fileName mimeType).1 =
      Except.ok r) :
    JsObj.get "size" r = some (JsValue.num data.length) := by
  rcases h1 : tryPrimary storacha env data fileName mimeType with ⟨o1, evs1⟩
  cases o1 with
  | some r1 =>
    have hr : r = r1 := by
      simp only [uploadFileToStorage, h1] at h
      simp only [Except.ok.injEq] at h
      exact h.symm
    subst hr
    exact tryPrimary_size storacha env data fileName mimeType r (by rw [h1])
  | none =>
    rcases h2 : trySecondary web3 env data fileName mimeType with ⟨o2, evs2⟩
    cases o2 with
    | some r2 =>
      have hr : r = r2 := by
        simp only [uploadFileToStorage, h1, h2] at h
        simp only [Except.ok.injEq] at h
        exact h.symm
      subst hr
      exact trySecondary_size web3 env data fileName mimeType r (by rw [h2])
    | none =>
      rcases h3 : tryLocal mode env data fileName mimeType with ⟨o3, evs3⟩
      cases o3 with
      | some r3 =>
        have hr : r = r3 := by
          simp only [uploadFileToStorage, h1, h2, h3] at h
          simp only [Except.ok.injEq] at h
          exact h.symm
        subst hr
        exact tryLocal_size mode env data fileName mimeType r (by rw [h3])
      | none =>
        simp [uploadFileToStorage, h1, h2, h3] at h

/-- Witness for C4 at a concrete input: the secondary provider succeeds on a
ten-byte payload and the returned size is the payload length. -/
theorem c4_size_equals_input_length_witness :
    JsObj.get "size"
      [("cid", JsValue.str "bafysecondary"),
       ("name", JsValue.str "a.png"),
       ("url", JsValue.str "https://bafysecondary.ipfs.w3s.link/a.png"),
       ("size", JsValue.num 10),
       ("type", JsValue.str "image/png")] = some (JsValue.num tenBytes.length) :=
  c4_size_equals_input_length none true (some "production") envAllOk tenBytes
    "a.png" "image/png"
    [("cid", JsValue.str "bafysecondary"),
     ("name", JsValue.str "a.png"),
     ("url", JsValue.str "https://bafysecondary.ipfs.w3s.link/a.png"),
     ("size", JsValue.num 10),
     ("type", JsValue.str "image/png")]
    rfl

/-- C5 counterexample: at a concrete input where the primary provider is
unconfigured and the secondary succeeds, the resolver does return the
secondary result, but that result carries no `providerUsed` field at all —
its fields are exactly `cid, name, url, size, type` — so the claim that the
result carries a `providerUsed` marker identifying the secondary provider is
false on the code. -/
theorem c5_counterexample :
    (uploadFileToStorage none true (some "production") envAllOk
        tenBytes "a.png" "image/png").1 =
      Except.ok
        [("cid", JsValue.str "bafysecondary"),
         ("name", JsValue.str "a.png"),
         ("url", JsValue.str "https://bafysecondary.ipfs.w3s.link/a.png"),
         ("size", JsValue.num 10),
         ("type", JsValue.str "image/png")] ∧
    JsObj.get "providerUsed"
      [("cid", JsValue.str "bafysecondary"),
       ("name", JsValue.str "a.png"),
       ("url", JsValue.str "https://bafysecondary.ipfs.w3s.link/a.png"),
       ("size", JsValue.num 10),
       ("type", JsValue.str "image/png")] = none := by
  constructor
  · rfl
  · rfl

/-- C5 (amended): if the primary provider is unconfigured or its readiness
guard fails before the store call, and the secondary is configured and its
put succeeds, `uploadFileToStorage` returns the secondary adapter's result
`{cid, name, url, size, type}`; it carries no `providerUsed` field — the
secondary origin shows only in the `w3s.link` gateway url shape and in the
invocation trace. -/
theorem c5_secondary_result (storacha : Option StorachaClient) (mode : Option String)
    (env : ResolverEnv) (data : List Nat) (fileName mimeType : String)
    (hp : tryPrimary storacha env data fileName mimeType = (none, []))
    (hput : env.putOk = true) :
    uploadFileToStorage storacha true mode env data fileName mimeType =
      (Except.ok
        [("cid", JsValue.str env.putCid),
         ("name", JsValue.str fileName),
         ("url", JsValue.str ("https://" ++ env.putCid ++ ".ipfs.w3s.link/" ++ fileName)),
         ("size", JsValue.num data.length),
         ("type", JsValue.str mimeType)],
       [Event.secondaryPut]) ∧
    JsObj.get "providerUsed"
      [("cid", JsValue.str env.putCid),
       ("name", JsValue.str fileName),
       ("url", JsValue.str ("https://" ++ env.putCid ++ ".ipfs.w3s.link/" ++ fileName)),
       ("size", JsValue.num data.length),
       ("type", JsValue.str mimeType)] = none := by
  constructor
  · simp [uploadFileToStorage, hp, trySecondary, hput]
  · simp [JsObj.get]

/-- Witness for the amended C5 at a concrete input: unset mode, primary
unconfigured, secondary healthy. -/
theorem c5_secondary_result_witness :
    uploadFileToStorage none true none envAllOk tenBytes "a.png" "image/png" =
      (Except.ok
        [("cid", JsValue.str "bafysecondary"),
         ("name", JsValue.str "a.png"),
         ("url", JsValue.str "https://bafysecondary.ipfs.w3s.link/a.png"),
         ("size", JsValue.num 10),
         ("type", JsValue.str "image/png")],
       [Event.secondaryPut]) ∧
    JsObj.get "providerUsed"
      [("cid", JsValue.str "bafysecondary"),
       ("name", JsValue.str "a.png"),
       ("url", JsValue.str "https://bafysecondary.ipfs.w3s.link/a.png"),
       ("size", JsValue.num 10),
       ("type", JsValue.str "image/png")] = none :=
  c5_secondary_result none none envAllOk tenBytes "a.png" "image/png" rfl rfl

/-- Session-state invariant of the primary provider: once `initialized` is
true, the client handle is non-null and a current space has been set. -/
def ClientInv (s : StorachaClient) : Prop :=
  s.initialized = true →
    s.client.isSome = true ∧ (StorachaClient.currentSpaceOf s).isSome = true

/-- Successful `setupSpace` always leaves the client handle on the target
space. -/
theorem setupSpace_ok_shape (s : StorachaClient) (env : W3Env) (s2 : StorachaClient)
    (h : StorachaClient.setupSpace s env = Except.ok s2) :
    s2 = { s with client := some { currentSpace := some s.spaceDid } } := by
  unfold StorachaClient.setupSpace at h
  by_cases h1 : env.spaces.contains s.spaceDid = true
  · by_cases h2 : env.setSpaceOk = true
    · rw [if_pos h1, if_pos h2] at h
      simp only [Except.ok.injEq] at h
      exact h.symm
    · rw [if_pos h1, if_neg h2] at h
      exact absurd h (by simp)
  · by_cases h2 : env.setSpaceOk = true
    · rw [if_neg h1, if_pos h2] at h
      simp only [Except.ok.injEq] at h
      exact h.symm
    · rw [if_neg h1, if_neg h2] at h
      exact absurd h (by simp)

/-- One `initialize` call preserves the session invariant. -/
theorem clientInv_init (s : StorachaClient) (env : W3Env) (h : ClientInv s) :
    ClientInv (StorachaClient.init s env).1 := by
  by_cases hi : s.initialized = true
  · simpa [StorachaClient.init, hi] using h
  · unfold StorachaClient.init
    rw [if_neg hi]
    by_cases hc : env.createOk = true
    · rw [if_pos hc]
      cases hs : StorachaClient.setupSpace
          { s with client := some { currentSpace := none } } env with
      | ok s2 =>
        have hshape := setupSpace_ok_shape _ env s2 hs
        subst hshape
        intro _
        constructor <;> simp [StorachaClient.currentSpaceOf]
      | error e =>
        intro hinit
        exact absurd (by simpa using hinit) hi
    · rw [if_neg hc]
      exact h

/-- The initialization guard preserves the session invariant. -/
theorem clientInv_ensureInit (s : StorachaClient) (env : W3Env) (h : ClientInv s) :
    ClientInv (StorachaClient.ensureInit s env).1 := by
  by_cases hi : s.initialized = true
  · simpa [StorachaClient.ensureInit, hi] using h
  · have := clientInv_init s env h
    simpa [StorachaClient.ensureInit, hi] using this

/-- The `upload` method only mutates session state through its
initialization guard. -/
theorem upload_state (s : StorachaClient) (env : W3Env) (data : List Nat)
    (filename contentType : String) :
    (StorachaClient.upload s env data filename contentType).1 =
      (StorachaClient.ensureInit s env).1 := by
  unfold StorachaClient.upload
  rcases hm : StorachaClient.ensureInit s env with ⟨s1, r1⟩
  cases r1 with
  | ok u => simp [hm]
  | error e => simp [hm]

/-- The `uploadDirectory` method only mutates session state through its
initialization guard. -/
theorem uploadDirectory_state (s : StorachaClient) (env : W3Env)
    (files : List (List Nat × String × String)) :
    (StorachaClient.uploadDirectory s env files).1 =
      (StorachaClient.ensureInit s env).1 := by
  unfold StorachaClient.uploadDirectory
  rcases hm : StorachaClient.ensureInit s env with ⟨s1, r1⟩
  cases r1 with
  | ok u => simp [hm]
  | error e => simp [hm]

/-- Session states reachable from a constructed `StorachaClient` by the
operations of the class: the explicit `initialize` call, the shared
initialization guard (used by `listUploads`, `getUploadInfo`,
`removeUpload`), `upload` and `uploadDirectory`. -/
inductive ReachableClient : StorachaClient → Prop where
  | constructed (apiKey : String) (s : StorachaClient)
      (h : StorachaClient.mkClient apiKey = Except.ok s) : ReachableClient s
  | initStep (s : StorachaClient) (env : W3Env) (h : ReachableClient s) :
      ReachableClient (StorachaClient.init s env).1
  | ensureStep (s : StorachaClient) (env : W3Env) (h : ReachableClient s) :
      ReachableClient (StorachaClient.ensureInit s env).1
  | uploadStep (s : StorachaClient) (env : W3Env) (data : List Nat)
      (filename contentType : String) (h : ReachableClient s) :
      ReachableClient (StorachaClient.upload s env data filename contentType).1
  | uploadDirStep (s : StorachaClient) (env : W3Env)
      (files : List (List Nat × String × String)) (h : ReachableClient s) :
      ReachableClient (StorachaClient.uploadDirectory s env files).1

/-- Every reachable session state satisfies the invariant. -/
theorem reachable_clientInv (s : StorachaClient) (h : ReachableClient s) : ClientInv s := by
  induction h with
  | constructed apiKey s hm =>
    unfold StorachaClient.mkClient at hm
    by_cases ha : apiKey = ""
    · rw [if_pos ha] at hm
      exact absurd hm (by simp)
    · rw [if_neg ha] at hm
      simp only [Except.ok.injEq] at hm
      subst hm
      intro hinit
      simp at hinit
  | initStep s env h ih => exact clientInv_init s env ih
  | ensureStep s env h ih => exact clientInv_ensureInit s env ih
  | uploadStep s env data filename contentType h ih =>
    rw [upload_state]
    exact clientInv_ensureInit s env ih
  | uploadDirStep s env files h ih =>
    rw [uploadDirectory_state]
    exact clientInv_ensureInit s env ih

/-- C6: after every operation, the primary provider's session state
satisfies that `initialized = true` implies the client handle is non-null
and a current space is set; and `isReady()` returns true exactly when
`initialized` is true and a current space is set. -/
theorem c6_isReady_invariant (s : StorachaClient) (h : ReachableClient s) :
    (s.initialized = true →
      s.client.isSome = true ∧ (StorachaClient.currentSpaceOf s).isSome = true) ∧
    (StorachaClient.isReady s = true ↔
      s.initialized = true ∧ (StorachaClient.currentSpaceOf s).isSome = true) := by
  refine ⟨reachable_clientInv s h, ?_⟩
  unfold StorachaClient.isReady
  simp [Bool.and_eq_true]

/-- Witness for C6 at a concrete reachable state: the session obtained by a
successful initialize on a fresh client. -/
theorem c6_isReady_invariant_witness :
    ((StorachaClient.init freshClient okW3).1.initialized = true →
      (StorachaClient.init freshClient okW3).1.client.isSome = true ∧
      (StorachaClient.currentSpaceOf (StorachaClient.init freshClient okW3).1).isSome = true) ∧
    (StorachaClient.isReady (StorachaClient.init freshClient okW3).1 = true ↔
      (StorachaClient.init freshClient okW3).1.initialized = true ∧
      (StorachaClient.currentSpaceOf (StorachaClient.init freshClient okW3).1).isSome = true) :=
  c6_isReady_invariant (StorachaClient.init freshClient okW3).1
    (ReachableClient.initStep freshClient okW3
      (ReachableClient.constructed "did:key:zspace" freshClient rfl))

/-- A successful `initialize` leaves the memoized flag set. -/
theorem init_ok_initialized (s : StorachaClient) (env : W3Env)
    (h : (StorachaClient.init s env).2.1 = Except.ok ()) :
    (StorachaClient.init s env).1.initialized = true := by
  by_cases hi : s.initialized = true
  · simp [StorachaClient.init, hi]
  · unfold StorachaClient.init at h ⊢
    rw [if_neg hi] at h ⊢
    by_cases hc : env.createOk = true
    · rw [if_pos hc] at h ⊢
      cases hs : StorachaClient.setupSpace
          { s with client := some { currentSpace := none } } env with
      | ok s2 => simp [hs]
      | error e =>
        rw [hs] at h
        simp at h
    · rw [if_neg hc] at h
      simp at h

/-- On an already-initialized session, `initialize` is a no-op returning
without any session-creation call. -/
theorem init_noop (t : StorachaClient) (env : W3Env) (h : t.initialized = true) :
    StorachaClient.init t env = (t, Except.ok (), 0) := by
  unfold StorachaClient.init
  rw [if_pos h]

/-- On a non-initialized session, `initialize` always performs exactly one
session-creation call. -/
theorem init_creation_count (s : StorachaClient) (env : W3Env) (h : s.initialized = false) :
    (StorachaClient.init s env).2.2 = 1 := by
  unfold StorachaClient.init
  rw [if_neg (by simp [h])]
  by_cases hc : env.createOk = true
  · rw [if_pos hc]
    cases hs : StorachaClient.setupSpace
        { s with client := some { currentSpace := none } } env with
    | ok s2 => simp
    | error e => simp
  · rw [if_neg hc]

/-- C7: calling `initialize` a second time in sequence after a successful
call is a no-op: the session state is unchanged and no second
session-creation call is performed. -/
theorem c7_second_init_noop (s : StorachaClient) (env1 env2 : W3Env)
    (h : (StorachaClient.init s env1).2.1 = Except.ok ()) :
    StorachaClient.init (StorachaClient.init s env1).1 env2 =
      ((StorachaClient.init s env1).1, Except.ok (), 0) :=
  init_noop (StorachaClient.init s env1).1 env2 (init_ok_initialized s env1 h)

/-- Witness for C7 at a concrete input: a fresh client initialized against a
healthy backend; the repeated call returns the same state with zero
session-creation calls. -/
theorem c7_second_init_noop_witness :
    StorachaClient.init (StorachaClient.init freshClient okW3).1 okW3 =
      ((StorachaClient.init freshClient okW3).1, Except.ok (), 0) :=
  c7_second_init_noop freshClient okW3 okW3 rfl

/-- A failed `setupSpace` reports either the direct-access
`setCurrentSpace` cause or the fixed delegation failure text. -/
theorem setupSpace_error_shape (s : StorachaClient) (env : W3Env) (e : String)
    (h : StorachaClient.setupSpace s env = Except.error e) :
    e = "Space setup failed: " ++ env.setSpaceErr ∨
    e = "Space setup failed: Unable to access space. Please ensure proper delegation is set up." := by
  unfold StorachaClient.setupSpace at h
  by_cases h1 : env.spaces.contains s.spaceDid = true
  · by_cases h2 : env.setSpaceOk = true
    · rw [if_pos h1, if_pos h2] at h
      exact absurd h (by simp)
    · rw [if_pos h1, if_neg h2] at h
      simp only [Except.error.injEq] at h
      exact Or.inl h.symm
  · by_cases h2 : env.setSpaceOk = true
    · rw [if_neg h1, if_pos h2] at h
      exact absurd h (by simp)
    · rw [if_neg h1, if_neg h2] at h
      simp only [Except.error.injEq] at h
      exact Or.inr h.symm

/-- A failed `initialize` surfaces one wrapped error whose text carries the
underlying cause: the session-creation failure, or either space-setup
failure. -/
theorem init_error_shape (s : StorachaClient) (env : W3Env) (e : String)
    (h0 : s.initialized = false)
    (h : (StorachaClient.init s env).2.1 = Except.error e) :
    e = "Storacha initialization failed: " ++ env.createErr ∨
    e = "Storacha initialization failed: Space setup failed: " ++ env.setSpaceErr ∨
    e = "Storacha initialization failed: Space setup failed: Unable to access space. Please ensure proper delegation is set up." := by
  unfold StorachaClient.init at h
  rw [if_neg (by simp [h0])] at h
  by_cases hc : env.createOk = true
  · rw [if_pos hc] at h
    cases hs : StorachaClient.setupSpace
        { s with client := some { currentSpace := none } } env with
    | ok s2 =>
      rw [hs] at h
      simp at h
    | error e0 =>
      rw [hs] at h
      simp only [Except.error.injEq] at h
      cases setupSpace_error_shape _ env e0 hs with
      | inl h2 =>
        refine Or.inr (Or.inl ?_)
        rw [← h, h2, ← String.append_assoc]
        congr 1
      | inr h2 =>
        refine Or.inr (Or.inr ?_)
        rw [← h, h2]
        rfl
  · rw [if_neg hc] at h
    simp only [Except.error.injEq] at h
    exact Or.inl h.symm

/-- C8: if initialization of the primary provider fails, the surfaced error
carries the underlying cause, the `initialized` flag remains false, and the
next `initialize` call re-runs the full setup (it performs a
session-creation call again). -/
theorem c8_failed_init_retries (s : StorachaClient) (env : W3Env) (e : String)
    (h0 : s.initialized = false)
    (h : (StorachaClient.init s env).2.1 = Except.error e) :
    (e = "Storacha initialization failed: " ++ env.createErr ∨
     e = "Storacha initialization failed: Space setup failed: " ++ env.setSpaceErr ∨
     e = "Storacha initialization failed: Space setup failed: Unable to access space. Please ensure proper delegation is set up.") ∧
    (StorachaClient.init s env).1.initialized = false ∧
    ∀ env2, (StorachaClient.init (StorachaClient.init s env).1 env2).2.2 = 1 := by
  have hstate : (StorachaClient.init s env).1.initialized = false := by
    unfold StorachaClient.init
    rw [if_neg (by simp [h0])]
    by_cases hc : env.createOk = true
    · rw [if_pos hc]
      cases hs : StorachaClient.setupSpace
          { s with client := some { currentSpace := none } } env with
      | ok s2 =>
        unfold StorachaClient.init at h
        rw [if_neg (by simp [h0]), if_pos hc, hs] at h
        simp at h
      | error e0 => exact h0
    · rw [if_neg hc]
      exact h0
  exact ⟨init_error_shape s env e h0 h, hstate,
    fun env2 => init_creation_count _ env2 hstate⟩

/-- Witness for C8 at a concrete input: a fresh client against a backend
whose session creation fails. -/
theorem c8_failed_init_retries_witness :
    ("Storacha initialization failed: network down" =
       "Storacha initialization failed: " ++ downW3.createErr ∨
     "Storacha initialization failed: network down" =
       "Storacha initialization failed: Space setup failed: " ++ downW3.setSpaceErr ∨
     "Storacha initialization failed: network down" =
       "Storacha initialization failed: Space setup failed: Unable to access space. Please ensure proper delegation is set up.") ∧
    (StorachaClient.init freshClient downW3).1.initialized = false ∧
    ∀ env2, (StorachaClient.init (StorachaClient.init freshClient downW3).1 env2).2.2 = 1 :=
  c8_failed_init_retries freshClient downW3
    "Storacha initialization failed: network down" rfl rfl

/-- C10: the primary adapter's `upload` and `uploadDirectory` do not require
a prior successful initialization: when `initialized` is false, the call
first runs the full initialization itself, then proceeds with the upload
body from the initialized state, propagating an initialization error
otherwise; the call succeeds exactly when both the initialization and the
upload itself succeed. -/
theorem c10_store_self_initializes (s : StorachaClient) (env : W3Env) (data : List Nat)
    (filename contentType : String) (files : List (List Nat × String × String))
    (h : s.initialized = false) :
    (StorachaClient.upload s env data filename contentType =
      (match (StorachaClient.init s env).2.1 with
       | Except.ok _ =>
         ((StorachaClient.init s env).1,
          StorachaClient.uploadBody env data filename contentType)
       | Except.error e => ((StorachaClient.init s env).1, Except.error e))) ∧
    (StorachaClient.uploadDirectory s env files =
      (match (StorachaClient.init s env).2.1 with
       | Except.ok _ =>
         ((StorachaClient.init s env).1, StorachaClient.uploadDirBody env files)
       | Except.error e => ((StorachaClient.init s env).1, Except.error e))) ∧
    ((StorachaClient.upload s env data filename contentType).2.isOk = true ↔
      ((StorachaClient.init s env).2.1.isOk = true ∧
       (StorachaClient.uploadBody env data filename contentType).isOk = true)) := by
  have he : StorachaClient.ensureInit s env =
      ((StorachaClient.init s env).1, (StorachaClient.init s env).2.1) := by
    unfold StorachaClient.ensureInit
    rw [if_neg (by simp [h])]
  cases hr : (StorachaClient.init s env).2.1 with
  | ok u =>
    rw [hr] at he
    refine ⟨?_, ?_, ?_⟩
    · simp [StorachaClient.upload, he, hr]
    · simp [StorachaClient.uploadDirectory, he, hr]
    · simp [StorachaClient.upload, he, hr, Except.isOk, Except.toBool]
  | error e =>
    rw [hr] at he
    refine ⟨?_, ?_, ?_⟩
    · simp [StorachaClient.upload, he, hr]
    · simp [StorachaClient.uploadDirectory, he, hr]
    · simp [StorachaClient.upload, he, hr, Except.isOk, Except.toBool]

/-- Witness for C10 at a concrete input: a fresh (uninitialized) client
against a healthy backend. -/
theorem c10_store_self_initializes_witness :
    (StorachaClient.upload freshClient okW3 tenBytes "a.png" "image/png" =
      (match (StorachaClient.init freshClient okW3).2.1 with
       | Except.ok _ =>
         ((StorachaClient.init freshClient okW3).1,
          StorachaClient.uploadBody okW3 tenBytes "a.png" "image/png")
       | Except.error e => ((StorachaClient.init freshClient okW3).1, Except.error e))) ∧
    (StorachaClient.uploadDirectory freshClient okW3 [(tenBytes, "a.png", "image/png")] =
      (match (StorachaClient.init freshClient okW3).2.1 with
       | Except.ok _ =>
         ((StorachaClient.init freshClient okW3).1,
          StorachaClient.uploadDirBody okW3 [(tenBytes, "a.png", "image/png")])
       | Except.error e => ((StorachaClient.init freshClient okW3).1, Except.error e))) ∧
    ((StorachaClient.upload freshClient okW3 tenBytes "a.png" "image/png").2.isOk = true ↔
      ((StorachaClient.init freshClient okW3).2.1.isOk = true ∧
       (StorachaClient.uploadBody okW3 tenBytes "a.png" "image/png").isOk = true)) :=
  c10_store_self_initializes freshClient okW3 tenBytes "a.png" "image/png"
    [(tenBytes, "a.png", "image/png")] rfl

end Nerospace
